import Mathlib

/-!
Verification of the `ts-result` library (`src/result.ts`): a Rust-style
`Result<T, E>` sum type for TypeScript, with combinators (`map`, `mapErr`,
`andThen`, `orElse`, `and`, `or`, ...), forced extraction (`unwrap`,
`unwrapErr`) raising a dedicated `UnwrapError`, and a diagnostic value
formatter `formatValue`.

The embedding mirrors the source:
 * `JSValue` models the dynamic JavaScript values that payloads and the
   formatter's `unknown` argument range over;
 * `Result T E` is the two-variant union of `OkImpl` / `ErrImpl`;
 * each class method becomes a function on `Result` (dispatch on the tag
   replaces dynamic dispatch between the two classes);
 * throwing methods return `Except (UnwrapError _) _` instead of raising;
 * `...Count` variants additionally report how many times the supplied
   callback was invoked, read directly off each method body;
 * `HResult` refines `Result` with an object identity (`oid`), so that
   `return this` (same `oid`) is distinguishable from `new OkImpl(...)` /
   `new ErrImpl(...)` (a fresh `oid`).
-/

namespace TsResult

/-- A model of a runtime JavaScript value, as inspected by `formatValue`
(`src/result.ts`, lines 441-458). Numbers are modelled as integers (no
claim depends on floating-point rendering). `func` and `symbol` stand for
function and symbol values (identified by an index resp. description, not
otherwise inspected), on which the host `JSON.stringify` returns
`undefined` without throwing; `bigintVal` stands for a BigInt and
`cyclicObj` for an object whose property graph is cyclic, on both of which
the host `JSON.stringify` throws. -/
inductive JSValue where
  | str (s : String)
  | num (n : Int)
  | bool (b : Bool)
  | null
  | undefined
  | obj (fields : List (String × JSValue))
  | arr (elems : List JSValue)
  | func (id : Nat)
  | symbol (desc : String)
  | bigintVal (n : Int)
  | cyclicObj
deriving Repr

/-- Wraps a string in double quotes, as the host `JSON.stringify` does for
string keys and values (escaping of inner quotes is not modelled; no claim
depends on it). -/
def jsonQuote (s : String) : String :=
  "\"" ++ s ++ "\""

/-- The three observable outcomes of the host `JSON.stringify`: it returns
a string, returns the value `undefined` (for `undefined`, functions and
symbols), or throws an exception (for BigInts and cyclic structures). -/
inductive JsonResult where
  | val (s : String)
  | undef
  | thrown
deriving Repr, DecidableEq

mutual

/-- Models the host `JSON.stringify(value, null, 2)` called by
`formatValue`. Top-level `undefined`, functions and symbols yield the host
value `undefined` (`JsonResult.undef`) without throwing; BigInts and
cyclic structures throw (`JsonResult.thrown`). Inside arrays,
unserializable elements render as `null`; inside objects, properties whose
value is unserializable are omitted, as in the host function. The exact
whitespace of the host's pretty-printing is not modelled; no claim depends
on it. -/
def stringifyJSON : JSValue → JsonResult
  | .str s => .val (jsonQuote s)
  | .num n => .val (toString n)
  | .bool b => .val (if b then "true" else "false")
  | .null => .val "null"
  | .undefined => .undef
  | .func _ => .undef
  | .symbol _ => .undef
  | .bigintVal _ => .thrown
  | .cyclicObj => .thrown
  | .arr es =>
      match stringifyArr es with
      | .ok parts => .val ("[" ++ String.intercalate "," parts ++ "]")
      | .error _ => .thrown
  | .obj fs =>
      match stringifyFields fs with
      | .ok parts => .val ("\x7b" ++ String.intercalate "," parts ++ "\x7d")
      | .error _ => .thrown

def stringifyArr : List JSValue → Except Unit (List String)
  | [] => .ok []
  | v :: vs =>
      match stringifyJSON v, stringifyArr vs with
      | .thrown, _ => .error ()
      | .undef, .ok t => .ok ("null" :: t)
      | .undef, .error _ => .error ()
      | .val s, .ok t => .ok (s :: t)
      | .val _, .error _ => .error ()

def stringifyFields : List (String × JSValue) → Except Unit (List String)
  | [] => .ok []
  | (k, v) :: fs =>
      match stringifyJSON v, stringifyFields fs with
      | .thrown, _ => .error ()
      | .undef, t => t
      | .val s, .ok t => .ok ((jsonQuote k ++ ":" ++ s) :: t)
      | .val _, .error _ => .error ()

end

/-- Models `Object.prototype.toString.call(value)`, the fallback used by
`formatValue` when serialization throws. -/
def objectProtoToString : JSValue → String
  | .str _ => "[object String]"
  | .num _ => "[object Number]"
  | .bool _ => "[object Boolean]"
  | .null => "[object Null]"
  | .undefined => "[object Undefined]"
  | .arr _ => "[object Array]"
  | .obj _ => "[object Object]"
  | .func _ => "[object Function]"
  | .symbol _ => "[object Symbol]"
  | .bigintVal _ => "[object BigInt]"
  | .cyclicObj => "[object Object]"

/-- `formatValue` (`src/result.ts`, lines 441-458): strings render quoted
via the template string; numbers, booleans, `null` and `undefined` render
via `String(value)`; anything else is `return JSON.stringify(value, null,
2)`, falling back to `Object.prototype.toString.call(value)` only when
that throws. Although the declared TypeScript return type is `string`, the
`try` branch forwards whatever `JSON.stringify` returns — for function and
symbol inputs that is the value `undefined`, modelled as `none` (the
`catch` fallback is not taken there, since nothing throws). -/
def formatValue : JSValue → Option String
  | .str s => some ("\"" ++ s ++ "\"")
  | .num n => some (toString n)
  | .bool b => some (if b then "true" else "false")
  | .null => some "null"
  | .undefined => some "undefined"
  | v =>
      match stringifyJSON v with
      | .val s => some s
      | .undef => none
      | .thrown => some (objectProtoToString v)

/-- Template-literal interpolation of `formatValue`'s result into the
default unwrap messages: `${x}` coerces the value `undefined` to the text
`undefined`. -/
def templateStr : Option String → String
  | some s => s
  | none => "undefined"

/-- The `Result<T, E>` union (`src/result.ts`, line 378): exactly one of
the two variants, `Ok` carrying `value : T` (class `OkImpl`) or `Err`
carrying `error : E` (class `ErrImpl`). The `_tag` discriminant is the
constructor. -/
inductive Result (T E : Type) where
  | Ok (value : T)
  | Err (error : E)
deriving Repr, DecidableEq

/-- The misuse signal `UnwrapError` (`src/result.ts`, lines 423-436): a
distinguished error class carrying the message and the payload that caused
the unwrap failure. Its `name` property is always the string
`UnwrapError`; the stack-trace bookkeeping of the constructor is not
behavioral and is not modelled. -/
structure UnwrapError (α : Type) where
  message : String
  causeValue : α
deriving Repr, DecidableEq

/-- The constant `name` set by the `UnwrapError` constructor. -/
def UnwrapError.jsName : String := "UnwrapError"

namespace Result

/-- `OkImpl.isOk` / `ErrImpl.isOk` (lines 28-30 / 213-215). -/
def isOk : Result T E → Bool
  | .Ok _ => true
  | .Err _ => false

/-- `OkImpl.isErr` / `ErrImpl.isErr` (lines 35-37 / 220-222). -/
def isErr : Result T E → Bool
  | .Ok _ => false
  | .Err _ => true

/-- `map` (lines 46-48 / 231-234): `Ok` wraps `mapper(this.value)` in a
new `OkImpl`; `Err` returns `this` (same tag and payload). -/
def map (r : Result T E) (mapper : T → U) : Result U E :=
  match r with
  | .Ok v => .Ok (mapper v)
  | .Err e => .Err e

/-- `mapErr` (lines 58-61 / 243-245): `Ok` returns `this`; `Err` wraps
`mapper(this.error)` in a new `ErrImpl`. -/
def mapErr (r : Result T E) (mapper : E → F) : Result T F :=
  match r with
  | .Ok v => .Ok v
  | .Err e => .Err (mapper e)

/-- `unwrap` (lines 70-72 / 254-258): `Ok` returns `this.value` (the
optional message is ignored); `Err` throws
`new UnwrapError(msg ?? defaultMessage, this.error)`. `msg : Option String`
models the optional parameter, `none` standing for a nullish (absent /
`undefined` / `null`) argument, which is exactly when `??` selects the
default. -/
def unwrap (r : Result T JSValue) (msg : Option String) :
    Except (UnwrapError JSValue) T :=
  match r with
  | .Ok v => .ok v
  | .Err e =>
      .error ⟨msg.getD ("Called unwrap on an Err value: "
        ++ templateStr (formatValue e)), e⟩

/-- `unwrapErr` (lines 81-85 / 265-267): `Ok` throws
`new UnwrapError(msg ?? defaultMessage, this.value)`; `Err` returns
`this.error` (the optional message is ignored). -/
def unwrapErr (r : Result JSValue E) (msg : Option String) :
    Except (UnwrapError JSValue) E :=
  match r with
  | .Ok v =>
      .error ⟨msg.getD ("Called unwrapErr on an Ok value: "
        ++ templateStr (formatValue v)), v⟩
  | .Err e => .ok e

/-- `unwrapOr` (lines 92-94 / 274-276). -/
def unwrapOr (r : Result T E) (defaultValue : T) : T :=
  match r with
  | .Ok v => v
  | .Err _ => defaultValue

/-- `unwrapOrElse` (lines 101-103 / 283-285). -/
def unwrapOrElse (r : Result T E) (op : E → T) : T :=
  match r with
  | .Ok v => v
  | .Err e => op e

/-- `andThen` (lines 113-115 / 294-297): `Ok` returns `op(this.value)`
directly; `Err` returns `this` (same tag and payload). -/
def andThen (r : Result T E) (op : T → Result U E) : Result U E :=
  match r with
  | .Ok v => op v
  | .Err e => .Err e

/-- `orElse` (lines 124-127 / 306-308): `Ok` returns `this`; `Err`
returns `op(this.error)` directly. -/
def orElse (r : Result T E) (op : E → Result T F) : Result T F :=
  match r with
  | .Ok v => .Ok v
  | .Err e => op e

/-- `match` (lines 135-137 / 316-318); named `matchWith` here because
`match` is a Lean keyword. -/
def matchWith (r : Result T E) (onOk : T → R) (onErr : E → R) : R :=
  match r with
  | .Ok v => onOk v
  | .Err e => onErr e

/-- `and` (lines 145-147 / 326-329): `Ok` returns the argument; `Err`
returns `this`. -/
def and (r : Result T E) (res : Result U E) : Result U E :=
  match r with
  | .Ok _ => res
  | .Err e => .Err e

/-- `or` (lines 156-159 / 338-340): `Ok` returns `this`; `Err` returns
the argument. -/
def or (r : Result T E) (res : Result T F) : Result T F :=
  match r with
  | .Ok v => .Ok v
  | .Err _ => res

/-- `mapOr` (lines 169-171 / 350-352). -/
def mapOr (r : Result T E) (defaultValue : U) (mapper : T → U) : U :=
  match r with
  | .Ok v => mapper v
  | .Err _ => defaultValue

/-- `mapOrElse` (lines 181-183 / 362-364). -/
def mapOrElse (r : Result T E) (defaultFn : E → U) (mapper : T → U) : U :=
  match r with
  | .Ok v => mapper v
  | .Err e => defaultFn e

/-- `map` instrumented with an invocation count for `mapper`, read off the
method bodies: the `Ok` body (line 47) calls `mapper` exactly once, the
`Err` body (line 233) returns `this` and never mentions it. -/
def mapCount (r : Result T E) (mapper : T → U) : Result U E × Nat :=
  match r with
  | .Ok v => (.Ok (mapper v), 1)
  | .Err e => (.Err e, 0)

/-- `andThen` instrumented with an invocation count for `op`: the `Ok`
body (line 114) calls `op` exactly once, the `Err` body (line 296) returns
`this` and never mentions it. -/
def andThenCount (r : Result T E) (op : T → Result U E) : Result U E × Nat :=
  match r with
  | .Ok v => (op v, 1)
  | .Err e => (.Err e, 0)

/-- `orElse` instrumented with an invocation count for `op`: the `Ok` body
(line 126) returns `this` and never mentions it, the `Err` body (line 307)
calls `op` exactly once. -/
def orElseCount (r : Result T E) (op : E → Result T F) : Result T F × Nat :=
  match r with
  | .Ok v => (.Ok v, 0)
  | .Err e => (op e, 1)

end Result

/-- Modelled from the spec: the synchronous escape hatch (`catches` in the
published package, absent from `src/`): runs a zero-argument computation
and wraps its outcome, `Ok` for a normal return and `Err` for a caught
exception, with no re-raising (the codomain is `Result`, not `Except`).
The computation is modelled as a function into `Except ε α`, `.error`
standing for a raised exception. -/
def catches (fn : Unit → Except ε α) : Result α ε :=
  match fn () with
  | .ok v => .Ok v
  | .error e => .Err e

/-- Modelled from the spec: the asynchronous escape hatch (`catchesAsync`
in the published package, absent from `src/`): awaits a promise-returning
computation and wraps the settled outcome, `Ok` for fulfilment and `Err`
for a caught rejection. The settled outcome is modelled as the
computation's `Except ε α` result. -/
def catchesAsync (fn : Unit → Except ε α) : Result α ε :=
  match fn () with
  | .ok v => .Ok v
  | .error e => .Err e

/-- `Result` refined with an object identity: `oid` is the heap identity
of the `OkImpl` / `ErrImpl` instance, so that a method body reading
`return this` keeps the receiver's `oid` while `new OkImpl(...)` /
`new ErrImpl(...)` takes a caller-supplied fresh `oid`. -/
structure HResult (T E : Type) where
  oid : Nat
  val : Result T E
deriving Repr, DecidableEq

namespace HResult

/-- `map` with identities (lines 46-48 / 231-234): the `Ok` body allocates
(`new OkImpl(mapper(this.value))`, identity `fresh`); the `Err` body is
`return this as unknown as Result<U, E>`, the receiver itself re-typed. -/
def map (self : HResult T E) (mapper : T → U) (fresh : Nat) : HResult U E :=
  match self.val with
  | .Ok v => ⟨fresh, .Ok (mapper v)⟩
  | .Err e => ⟨self.oid, .Err e⟩

/-- `mapErr` with identities (lines 58-61 / 243-245): the `Ok` body is
`return this as unknown as Result<T, F>`; the `Err` body allocates
(`new ErrImpl(mapper(this.error))`, identity `fresh`). -/
def mapErr (self : HResult T E) (mapper : E → F) (fresh : Nat) : HResult T F :=
  match self.val with
  | .Ok v => ⟨self.oid, .Ok v⟩
  | .Err e => ⟨fresh, .Err (mapper e)⟩

/-- `andThen` with identities (lines 113-115 / 294-297): the `Ok` body
returns `op(this.value)` directly (whatever object `op` yields); the `Err`
body is `return this as unknown as Result<U, E>`. -/
def andThen (self : HResult T E) (op : T → HResult U E) : HResult U E :=
  match self.val with
  | .Ok v => op v
  | .Err e => ⟨self.oid, .Err e⟩

/-- `orElse` with identities (lines 124-127 / 306-308): the `Ok` body is
`return this as unknown as Result<T, F>`; the `Err` body returns
`op(this.error)` directly. -/
def orElse (self : HResult T E) (op : E → HResult T F) : HResult T F :=
  match self.val with
  | .Ok v => ⟨self.oid, .Ok v⟩
  | .Err e => op e

/-- `and` with identities (lines 145-147 / 326-329): the `Ok` body returns
the argument object; the `Err` body is `return this as unknown as ...`. -/
def and (self : HResult T E) (res : HResult U E) : HResult U E :=
  match self.val with
  | .Ok _ => res
  | .Err e => ⟨self.oid, .Err e⟩

/-- `or` with identities (lines 156-159 / 338-340): the `Ok` body is
`return this as unknown as ...`; the `Err` body returns the argument
object. -/
def or (self : HResult T E) (res : HResult T F) : HResult T F :=
  match self.val with
  | .Ok v => ⟨self.oid, .Ok v⟩
  | .Err _ => res

end HResult

/-- Claim C1: for every payload `v`, `Ok(v).unwrap()` returns `v`; for every
payload `e`, `Err(e).unwrap()` always raises an `UnwrapError` whose
`causeValue` equals `e`; symmetrically, `Err(e).unwrapErr()` returns `e`,
and `Ok(v).unwrapErr()` always raises an `UnwrapError` whose `causeValue`
equals `v` — for any optional message. -/
theorem c1_unwrap_laws :
    (∀ (T : Type) (v : T) (msg : Option String),
        Result.unwrap (Result.Ok v) msg = Except.ok v)
    ∧ (∀ (T : Type) (e : JSValue) (msg : Option String),
        ∃ u : UnwrapError JSValue,
          Result.unwrap (Result.Err e : Result T JSValue) msg = Except.error u
            ∧ u.causeValue = e)
    ∧ (∀ (E : Type) (e : E) (msg : Option String),
        Result.unwrapErr (Result.Err e) msg = Except.ok e)
    ∧ (∀ (E : Type) (v : JSValue) (msg : Option String),
        ∃ u : UnwrapError JSValue,
          Result.unwrapErr (Result.Ok v : Result JSValue E) msg = Except.error u
            ∧ u.causeValue = v) := by
  refine ⟨fun T v msg => rfl, fun T e msg => ⟨_, rfl, rfl⟩,
    fun E e msg => rfl, fun E v msg => ⟨_, rfl, rfl⟩⟩

/-- Claim C2: for every payload `v` and `Result`-returning `op`,
`Ok(v).andThen(op)` equals `op(v)` (invoking `op` exactly once); for every
payload `e` and every `op`, `Err(e).andThen(op)` returns the original
failure — same tag and payload — without invoking `op`. -/
theorem c2_andThen_laws :
    (∀ (T E U : Type) (v : T) (op : T → Result U E),
        Result.andThen (Result.Ok v) op = op v)
    ∧ (∀ (T E U : Type) (e : E) (op : T → Result U E),
        Result.andThen (Result.Err e) op = Result.Err e)
    ∧ (∀ (T E U : Type) (v : T) (op : T → Result U E),
        Result.andThenCount (Result.Ok v) op = (op v, 1))
    ∧ (∀ (T E U : Type) (e : E) (op : T → Result U E),
        Result.andThenCount (Result.Err e) op = (Result.Err e, 0)) :=
  ⟨fun _ _ _ _ _ => rfl, fun _ _ _ _ _ => rfl,
    fun _ _ _ _ _ => rfl, fun _ _ _ _ _ => rfl⟩

/-- Claim C3: for every payload `e` and `Result`-returning `op`,
`Err(e).orElse(op)` equals `op(e)` (invoking `op` exactly once); for every
payload `v` and every `op`, `Ok(v).orElse(op)` returns the original
success — same tag and payload — without invoking `op`. -/
theorem c3_orElse_laws :
    (∀ (T E F : Type) (e : E) (op : E → Result T F),
        Result.orElse (Result.Err e) op = op e)
    ∧ (∀ (T E F : Type) (v : T) (op : E → Result T F),
        Result.orElse (Result.Ok v) op = Result.Ok v)
    ∧ (∀ (T E F : Type) (e : E) (op : E → Result T F),
        Result.orElseCount (Result.Err e) op = (op e, 1))
    ∧ (∀ (T E F : Type) (v : T) (op : E → Result T F),
        Result.orElseCount (Result.Ok v) op = (Result.Ok v, 0)) :=
  ⟨fun _ _ _ _ _ => rfl, fun _ _ _ _ _ => rfl,
    fun _ _ _ _ _ => rfl, fun _ _ _ _ _ => rfl⟩

/-- Claim C4: the escape-hatch adapter pair (`catches` synchronous,
`catchesAsync` asynchronous) takes a zero-argument computation and, when
the computation returns normally with `v`, yields `Ok(v)`, and when it
raises an exception `X`, yields `Err(X)` — with no re-raising, since the
codomain is a plain `Result`, never an exceptional outcome. -/
theorem c4_catches_laws :
    (∀ (α ε : Type) (v : α),
        catches (fun _ => Except.ok v) = (Result.Ok v : Result α ε))
    ∧ (∀ (α ε : Type) (x : ε),
        catches (fun _ => Except.error x) = (Result.Err x : Result α ε))
    ∧ (∀ (α ε : Type) (v : α),
        catchesAsync (fun _ => Except.ok v) = (Result.Ok v : Result α ε))
    ∧ (∀ (α ε : Type) (x : ε),
        catchesAsync (fun _ => Except.error x) = (Result.Err x : Result α ε)) :=
  ⟨fun _ _ _ => rfl, fun _ _ _ => rfl, fun _ _ _ => rfl, fun _ _ _ => rfl⟩

/-- Claim C5: functor laws — `Ok(v).map(id)` equals `Ok(v)`;
`Err(e).mapErr(id)` equals `Err(e)`; and `Ok(v).map(f).map(g)` equals
`Ok(v).map(x => g(f(x)))` for all pure `f`, `g`. -/
theorem c5_functor_laws :
    (∀ (T E : Type) (v : T),
        Result.map (Result.Ok v : Result T E) id = Result.Ok v)
    ∧ (∀ (T E : Type) (e : E),
        Result.mapErr (Result.Err e : Result T E) id = Result.Err e)
    ∧ (∀ (T E U W : Type) (v : T) (f : T → U) (g : U → W),
        Result.map (Result.map (Result.Ok v : Result T E) f) g
          = Result.map (Result.Ok v : Result T E) (fun x => g (f x))) :=
  ⟨fun _ _ _ => rfl, fun _ _ _ => rfl, fun _ _ _ _ _ _ _ => rfl⟩

/-- Claim C6: short-circuit law — for every payload `e` and every `f`,
`Err(e).map(f)` equals `Err(e)` (still an `Err`, same payload and tag) and
`f` is never invoked. -/
theorem c6_err_map_short_circuit :
    (∀ (T E U : Type) (e : E) (f : T → U),
        Result.map (Result.Err e : Result T E) f = Result.Err e)
    ∧ (∀ (T E U : Type) (e : E) (f : T → U),
        Result.mapCount (Result.Err e : Result T E) f = (Result.Err e, 0)) :=
  ⟨fun _ _ _ _ _ => rfl, fun _ _ _ _ _ => rfl⟩

/-- Claim C7: `Err("boom").unwrap()` raises a signal whose message text
contains the quoted string `"boom"` and whose `causeValue` is the string
`boom`; `Err("boom").unwrap("custom")` raises a signal whose message is
exactly `custom`. -/
theorem c7_unwrap_messages :
    Result.unwrap (Result.Err (JSValue.str "boom") : Result JSValue JSValue) none
      = Except.error ⟨"Called unwrap on an Err value: \"boom\"", JSValue.str "boom"⟩
    ∧ (∃ pre post : String,
        "Called unwrap on an Err value: \"boom\"" = pre ++ "\"boom\"" ++ post)
    ∧ Result.unwrap (Result.Err (JSValue.str "boom") : Result JSValue JSValue)
        (some "custom")
      = Except.error ⟨"custom", JSValue.str "boom"⟩ := by
  refine ⟨rfl, ⟨"Called unwrap on an Err value: ", "", by decide⟩, rfl⟩

/-- Claim C8, counterexample: `formatValue` does not return a string for
every input value — on a function value (and likewise on a symbol), the
host `JSON.stringify` returns the value `undefined` without throwing, the
`try` branch forwards it, and `formatValue` returns `undefined` (modelled
as `none`) rather than any string; the type-tag fallback is never taken
there. -/
theorem c8_counterexample :
    formatValue (JSValue.func 0) = none
    ∧ formatValue (JSValue.symbol "s") = none := ⟨rfl, rfl⟩

/-- Claim C8, amended: `formatValue` is a pure function that never raises:
strings render quoted; numbers, booleans and absent-markers
(`null`/`undefined`) render via their natural textual form; objects and
arrays render as the structured serialization when it succeeds, falling
back to the generic type-tag string when serialization itself throws
(e.g., cyclic structures or BigInts); but it does not return a string for
every input value: for function and symbol values the serialization
returns `undefined` without throwing and `formatValue` passes that
`undefined` through. -/
theorem c8_amended_formatValue :
    (∀ s : String, formatValue (JSValue.str s) = some ("\"" ++ s ++ "\""))
    ∧ (∀ n : Int, formatValue (JSValue.num n) = some (toString n))
    ∧ (∀ b : Bool,
        formatValue (JSValue.bool b) = some (if b then "true" else "false"))
    ∧ formatValue JSValue.null = some "null"
    ∧ formatValue JSValue.undefined = some "undefined"
    ∧ (∀ fs, formatValue (JSValue.obj fs)
        = match stringifyJSON (JSValue.obj fs) with
          | .val s => some s
          | .undef => none
          | .thrown => some (objectProtoToString (JSValue.obj fs)))
    ∧ (∀ es, formatValue (JSValue.arr es)
        = match stringifyJSON (JSValue.arr es) with
          | .val s => some s
          | .undef => none
          | .thrown => some (objectProtoToString (JSValue.arr es)))
    ∧ formatValue (JSValue.obj [("a", JSValue.num 1), ("b", JSValue.str "x")])
        = some "\x7b\"a\":1,\"b\":\"x\"\x7d"
    ∧ formatValue (JSValue.obj [("f", JSValue.func 0), ("a", JSValue.num 1)])
        = some "\x7b\"a\":1\x7d"
    ∧ formatValue (JSValue.arr [JSValue.num 1, JSValue.undefined, JSValue.func 0])
        = some "[1,null,null]"
    ∧ stringifyJSON (JSValue.obj [("a", JSValue.cyclicObj)]) = JsonResult.thrown
    ∧ formatValue (JSValue.obj [("a", JSValue.cyclicObj)]) = some "[object Object]"
    ∧ formatValue JSValue.cyclicObj = some "[object Object]"
    ∧ formatValue (JSValue.bigintVal 1) = some "[object BigInt]" := by
  refine ⟨fun s => rfl, fun n => rfl, fun b => rfl, rfl, rfl, ?_, ?_,
    by decide, by decide, by decide, by decide, by decide, rfl, rfl⟩
  · intro fs
    cases hs : stringifyJSON (JSValue.obj fs) <;> simp [formatValue, hs]
  · intro es
    cases hs : stringifyJSON (JSValue.arr es) <;> simp [formatValue, hs]

/-- Claim C9, counterexample: `Err("e").map(f)` returns the receiver
object itself — in the identity-tracking model, the result keeps the
receiver's object identity `0` even though the fresh identity `1` was
available — so not every transformation produces a new `Result` value
rather than the receiver. -/
theorem c9_counterexample :
    HResult.map (⟨0, Result.Err (JSValue.str "e")⟩ : HResult JSValue JSValue)
        (fun v => v) 1
      = (⟨0, Result.Err (JSValue.str "e")⟩ : HResult JSValue JSValue) := rfl

/-- Claim C9, amended: no operation converts a `Result` in place from one
variant to the other — every method either returns the receiver itself
completely unchanged (same identity, tag and payload), returns an argument
or callback result unchanged, or allocates a fresh value; the
value-bearing directions (`Ok.map`, `Err.mapErr`) allocate a new `Result`,
while the pass-through directions (`Err.map`, `Ok.mapErr`, `Err.andThen`,
`Ok.orElse`, `Err.and`, `Ok.or`) return the receiver itself merely
re-typed, and `Ok.and` / `Err.or` return the argument itself. -/
theorem c9_amended_identity :
    (∀ (T E U : Type) (i j : Nat) (v : T) (f : T → U),
        HResult.map (⟨i, Result.Ok v⟩ : HResult T E) f j = ⟨j, Result.Ok (f v)⟩)
    ∧ (∀ (T E U : Type) (i j : Nat) (e : E) (f : T → U),
        HResult.map (⟨i, Result.Err e⟩ : HResult T E) f j = ⟨i, Result.Err e⟩)
    ∧ (∀ (T E F : Type) (i j : Nat) (v : T) (f : E → F),
        HResult.mapErr (⟨i, Result.Ok v⟩ : HResult T E) f j = ⟨i, Result.Ok v⟩)
    ∧ (∀ (T E F : Type) (i j : Nat) (e : E) (f : E → F),
        HResult.mapErr (⟨i, Result.Err e⟩ : HResult T E) f j
          = ⟨j, Result.Err (f e)⟩)
    ∧ (∀ (T E U : Type) (i : Nat) (v : T) (op : T → HResult U E),
        HResult.andThen (⟨i, Result.Ok v⟩ : HResult T E) op = op v)
    ∧ (∀ (T E U : Type) (i : Nat) (e : E) (op : T → HResult U E),
        HResult.andThen (⟨i, Result.Err e⟩ : HResult T E) op = ⟨i, Result.Err e⟩)
    ∧ (∀ (T E F : Type) (i : Nat) (v : T) (op : E → HResult T F),
        HResult.orElse (⟨i, Result.Ok v⟩ : HResult T E) op = ⟨i, Result.Ok v⟩)
    ∧ (∀ (T E F : Type) (i : Nat) (e : E) (op : E → HResult T F),
        HResult.orElse (⟨i, Result.Err e⟩ : HResult T E) op = op e)
    ∧ (∀ (T E U : Type) (i : Nat) (v : T) (r : HResult U E),
        HResult.and (⟨i, Result.Ok v⟩ : HResult T E) r = r)
    ∧ (∀ (T E U : Type) (i : Nat) (e : E) (r : HResult U E),
        HResult.and (⟨i, Result.Err e⟩ : HResult T E) r = ⟨i, Result.Err e⟩)
    ∧ (∀ (T E F : Type) (i : Nat) (v : T) (r : HResult T F),
        HResult.or (⟨i, Result.Ok v⟩ : HResult T E) r = ⟨i, Result.Ok v⟩)
    ∧ (∀ (T E F : Type) (i : Nat) (e : E) (r : HResult T F),
        HResult.or (⟨i, Result.Err e⟩ : HResult T E) r = r) :=
  ⟨fun _ _ _ _ _ _ _ => rfl, fun _ _ _ _ _ _ _ => rfl,
    fun _ _ _ _ _ _ _ => rfl, fun _ _ _ _ _ _ _ => rfl,
    fun _ _ _ _ _ _ => rfl, fun _ _ _ _ _ _ => rfl,
    fun _ _ _ _ _ _ => rfl, fun _ _ _ _ _ _ => rfl,
    fun _ _ _ _ _ _ => rfl, fun _ _ _ _ _ _ => rfl,
    fun _ _ _ _ _ _ => rfl, fun _ _ _ _ _ _ => rfl⟩

/-- Claim C10: the default diagnostic message of `unwrap` / `unwrapErr` is
used exactly when the optional message is nullish (absent, `undefined` or
`null`, modelled as `none`); any supplied string — in particular the empty
string — is used verbatim, so `Err(e).unwrap("")` raises an `UnwrapError`
whose message is the empty string, not the default. -/
theorem c10_empty_message :
    (∀ e : JSValue,
        Result.unwrap (Result.Err e : Result JSValue JSValue) none
          = Except.error
              ⟨"Called unwrap on an Err value: " ++ templateStr (formatValue e), e⟩)
    ∧ (∀ (e : JSValue) (s : String),
        Result.unwrap (Result.Err e : Result JSValue JSValue) (some s)
          = Except.error ⟨s, e⟩)
    ∧ Result.unwrap (Result.Err (JSValue.str "boom") : Result JSValue JSValue)
        (some "")
      = Except.error ⟨"", JSValue.str "boom"⟩
    ∧ (∀ v : JSValue,
        Result.unwrapErr (Result.Ok v : Result JSValue JSValue) none
          = Except.error
              ⟨"Called unwrapErr on an Ok value: " ++ templateStr (formatValue v), v⟩)
    ∧ (∀ (v : JSValue) (s : String),
        Result.unwrapErr (Result.Ok v : Result JSValue JSValue) (some s)
          = Except.error ⟨s, v⟩)
    ∧ Result.unwrapErr (Result.Ok (JSValue.num 1) : Result JSValue JSValue)
        (some "")
      = Except.error ⟨"", JSValue.num 1⟩ :=
  ⟨fun _ => rfl, fun _ _ => rfl, rfl, fun _ => rfl, fun _ _ => rfl, rfl⟩

end TsResult
